import Mathlib

/-!
Verification of `mms/metrics/metrics_store.py` (MetricsStore): a shallow
embedding of the metrics collection module, together with theorems settling
the specification claims about it.

Conventions of the embedding:
* Python exceptions are modelled with `Except PyErr`; a raising call returns
  `.error e` and produces no successor state, so a failed call never mutates
  `store` or `cache`.
* Python `None` for optional strings/ints is `Option.none`.
* The dynamically-typed `dimensions` argument is `Option DimArg`: Python
  `None` is `none`, a Python list of dimensions is `some (DimArg.pyList ds)`,
  and any other Python value is `some DimArg.nonList`.
* `request_ids` (a string, a dict from batch index to id, or `None`) is the
  inductive `ReqIds`; a Python dict is an insertion-ordered list of key-value
  pairs with distinct keys.
* The cache dict maps composite key strings to the cached `Metric` object;
  since that object is the very list element of `store` it aliases, the model
  stores the index of the metric in `store` and in-place `Metric.update` is
  an update of `store` at that index.
-/

set_option autoImplicit false

namespace MMS

/-- Python exceptions raised by this module. -/
inductive PyErr where
  | valueError (msg : String)
  | typeError (msg : String)
deriving DecidableEq

/-- A Python metric value (int/float or str); the module never inspects it. -/
inductive PyVal where
  | pyint (n : Int)
  | pystr (s : String)
deriving DecidableEq

structure Dimension where
  name : String
  value : String
deriving DecidableEq

/-- Modelled from the spec: the `Dimension` collaborator
(`mms/metrics/dimension.py`, not under src/) is a (name, value) pair with a
deterministic string representation used as part of the dedup key; rendered
here as `name:value`. -/
def Dimension.toStr (d : Dimension) : String := d.name ++ ":" ++ d.value

/-- The dynamically-typed `dimensions` argument of the add operations:
either a Python list of `Dimension` or some non-list Python value
(one representative constructor suffices, since the code only tests
`isinstance(dimensions, list)` and otherwise stores the value opaquely). -/
inductive DimArg where
  | pyList (ds : List Dimension)
  | nonList
deriving DecidableEq

/-- A Python value reaching the `metrics_method` parameter of
`_add_or_update`: either a string (only `add_counter` passes a string) or a
`dimensions` argument (the other five operations pass their `dimensions`
argument positionally into this slot). -/
inductive PyObj where
  | pystr (s : String)
  | pydims (d : DimArg)
deriving DecidableEq

/-- Modelled from the spec: the `Metric` collaborator
(`mms/metrics/metric.py`, not under src/) holds
(name, value, unit, dimensions, req_id, metrics_method) and exposes
`update(value)` with collaborator-owned aggregation semantics; modelled by
recording the whole sequence of values forwarded to the object, the head
being the constructor value. -/
structure Metric where
  name : String
  values : List PyVal
  unit : Option String
  dimensions : List Dimension
  req_id : Option String
  metrics_method : Option PyObj
deriving DecidableEq

/-- `Metric.update(value)`: the collaborator-owned in-place aggregation,
modelled as appending the forwarded value to the record of values; every
identity-relevant field is unchanged. -/
def Metric.update (m : Metric) (value : PyVal) : Metric :=
  { m with values := m.values ++ [value] }

/-- The `request_ids` construction argument: `None`, a plain string, or a
dict from batch index to request id. -/
inductive ReqIds where
  | pynone
  | pystr (s : String)
  | pydict (entries : List (Int × String))
deriving DecidableEq

structure MetricsStore where
  store : List Metric
  request_ids : ReqIds
  model_name : String
  cache : List (String × Nat)
deriving DecidableEq

/-- `str.join(sep, parts)` on a list of strings. -/
def listJoin (sep : String) : List String → String
  | [] => ""
  | [s] => s
  | s :: t :: rest => s ++ sep ++ listJoin sep (t :: rest)

/-- All-some extraction: `none` as soon as one element is Python `None`. -/
def seqOpts : List (Option String) → Option (List String)
  | [] => some []
  | none :: _ => none
  | some s :: rest => (seqOpts rest).map (fun l => s :: l)

/-- `sep.join(parts)` where an element may be Python `None`, in which case
the join raises a `TypeError`. -/
def pyJoin (sep : String) (parts : List (Option String)) : Except PyErr String :=
  match seqOpts parts with
  | some ss => .ok (listJoin sep ss)
  | none => .error (.typeError "sequence item: expected str instance, NoneType found")

/-- Python `str(x)` for an optional string: `str(None)` is `"None"`. -/
def pyStr : Option String → String
  | none => "None"
  | some s => s

/-- In-place `Metric.update` of the `i`-th element of the store list
(`self.cache[dim_str].update(value)` mutates the aliased store element). -/
def updateAt : List Metric → Nat → PyVal → List Metric
  | [], _, _ => []
  | m :: ms, 0, v => m.update v :: ms
  | m :: ms, Nat.succ i, v => m :: updateAt ms i v

def dimsErrMsg : String := "Please provide a list of dimensions"
def timeUnitErrMsg : String := "the unit for a timed metric should be one of [ms, s]"
def sizeUnitErrMsg : String := "The unit for size based metric is one of [MB, kB, GB]"
def strInIntErrMsg : String := "in str requires string as left operand, not int"
def joinNoneErrMsg : String := "sequence item: expected str instance, NoneType found"

/-- `MetricsStore.__init__(request_ids, model_name)`. -/
def MetricsStore.init (request_ids : ReqIds) (model_name : String) : MetricsStore :=
  { store := [], request_ids := request_ids, model_name := model_name, cache := [] }

/-- The dimension augmentation of `_add_or_update`: append
`Dimension(ModelName, model_name)` and `Dimension(Level, Model)` when the
request id is non-null, else append `Dimension(Level, Error)` (the two
`if` statements of the source are mutually exclusive). -/
def augDims (model_name : String) (req_id : Option String) (dims0 : List Dimension) :
    List Dimension :=
  let dims1 := if req_id.isSome
    then dims0 ++ [⟨"ModelName", model_name⟩, ⟨"Level", "Model"⟩] else dims0
  if req_id.isNone then dims1 ++ [⟨"Level", "Error"⟩] else dims1

/-- Body of `_add_or_update` after the normalization of the `dimensions`
argument to a plain list `dims0` (Python: `if dimensions is None:
dimensions = list()`). -/
def MetricsStore.add_or_update_core (st : MetricsStore) (name : String) (value : PyVal)
    (req_id : Option String) (unit : Option String) (metrics_method : Option PyObj)
    (dims0 : List Dimension) : Except PyErr MetricsStore :=
  let dims2 := augDims st.model_name req_id dims0
  match pyJoin "-" ([some name, unit, some (pyStr req_id)]
      ++ dims2.map (fun d => some d.toStr)) with
  | .error e => .error e
  | .ok key =>
    match st.cache.find? (fun p => p.1 == key) with
    | none =>
      let metric : Metric :=
        { name := name, values := [value], unit := unit, dimensions := dims2,
          req_id := req_id, metrics_method := metrics_method }
      .ok { st with store := st.store ++ [metric],
                    cache := st.cache ++ [(key, st.store.length)] }
    | some p =>
      .ok { st with store := updateAt st.store p.2 value }

/-- `MetricsStore._add_or_update(name, value, req_id, unit, metrics_method=None,
dimensions=None)`. -/
def MetricsStore.add_or_update (st : MetricsStore) (name : String) (value : PyVal)
    (req_id : Option String) (unit : Option String) (metrics_method : Option PyObj)
    (dimensions : Option DimArg) : Except PyErr MetricsStore :=
  match dimensions with
  | none => st.add_or_update_core name value req_id unit metrics_method []
  | some (DimArg.pyList ds) => st.add_or_update_core name value req_id unit metrics_method ds
  | some DimArg.nonList => .error (.valueError dimsErrMsg)

/-- `MetricsStore._get_req(idx)`: resolve the request id for a batch index.
Note that when `request_ids` is a plain string and `idx` is an integer, the
Python membership test `idx in self.request_ids` raises a `TypeError`. -/
def MetricsStore.get_req (st : MetricsStore) (idx : Option Int) :
    Except PyErr (Option String) :=
  let req_id : Option String :=
    match st.request_ids with
    | ReqIds.pydict entries => some (listJoin "," (entries.map Prod.snd))
    | ReqIds.pystr s => some s
    | ReqIds.pynone => none
  match idx, st.request_ids with
  | some _, ReqIds.pystr _ => .error (.typeError strInIntErrMsg)
  | some i, ReqIds.pydict entries =>
    match entries.find? (fun p => p.1 == i) with
    | some p => .ok (some p.2)
    | none => .ok req_id
  | _, _ => .ok req_id

/-- `MetricsStore.add_counter(name, value, idx=None, dimensions=None)`:
the only public operation passing six positional arguments to
`_add_or_update`, so its `dimensions` reaches the `dimensions` parameter. -/
def MetricsStore.add_counter (st : MetricsStore) (name : String) (value : PyVal)
    (idx : Option Int) (dimensions : Option DimArg) : Except PyErr MetricsStore :=
  match st.get_req idx with
  | .error e => .error e
  | .ok req_id =>
    st.add_or_update name value req_id (some "count") (some (PyObj.pystr "counter")) dimensions

/-- `MetricsStore.add_time(name, value, idx=None, unit=ms, dimensions=None)`.
The source calls `self._add_or_update(name, value, req_id, unit, dimensions)`
with five positional arguments, so `dimensions` is bound to the
`metrics_method` parameter and the `dimensions` parameter keeps its `None`
default. -/
def MetricsStore.add_time (st : MetricsStore) (name : String) (value : PyVal)
    (idx : Option Int) (unit : String) (dimensions : Option DimArg) :
    Except PyErr MetricsStore :=
  if unit ∉ (["ms", "s"] : List String) then .error (.valueError timeUnitErrMsg)
  else
    match st.get_req idx with
    | .error e => .error e
    | .ok req_id =>
      st.add_or_update name value req_id (some unit) (dimensions.map PyObj.pydims) none

/-- `MetricsStore.add_size(name, value, idx=None, unit=MB, dimensions=None)`;
same five-positional-argument call shape as `add_time`. -/
def MetricsStore.add_size (st : MetricsStore) (name : String) (value : PyVal)
    (idx : Option Int) (unit : String) (dimensions : Option DimArg) :
    Except PyErr MetricsStore :=
  if unit ∉ (["MB", "kB", "GB"] : List String) then .error (.valueError sizeUnitErrMsg)
  else
    match st.get_req idx with
    | .error e => .error e
    | .ok req_id =>
      st.add_or_update name value req_id (some unit) (dimensions.map PyObj.pydims) none

/-- `MetricsStore.add_percent(name, value, idx=None, dimensions=None)`;
same five-positional-argument call shape as `add_time`. -/
def MetricsStore.add_percent (st : MetricsStore) (name : String) (value : PyVal)
    (idx : Option Int) (dimensions : Option DimArg) : Except PyErr MetricsStore :=
  match st.get_req idx with
  | .error e => .error e
  | .ok req_id =>
    st.add_or_update name value req_id (some "percent") (dimensions.map PyObj.pydims) none

/-- `MetricsStore.add_error(name, value, dimensions=None)`;
same five-positional-argument call shape as `add_time`, with `req_id = None`
and unit the empty string. -/
def MetricsStore.add_error (st : MetricsStore) (name : String) (value : PyVal)
    (dimensions : Option DimArg) : Except PyErr MetricsStore :=
  st.add_or_update name value none (some "") (dimensions.map PyObj.pydims) none

/-- `MetricsStore.add_metric(name, value, idx=None, unit=None, dimensions=None)`;
same five-positional-argument call shape as `add_time`, with a caller-supplied
(possibly `None`) unit. -/
def MetricsStore.add_metric (st : MetricsStore) (name : String) (value : PyVal)
    (idx : Option Int) (unit : Option String) (dimensions : Option DimArg) :
    Except PyErr MetricsStore :=
  match st.get_req idx with
  | .error e => .error e
  | .ok req_id =>
    st.add_or_update name value req_id unit (dimensions.map PyObj.pydims) none

/-- The composite dedup key of a metric, recomputed from its fields.
For every metric the module stores, `unit` is a `some`, and this value
coincides with the `dim_str` key under which the metric was cached. -/
def metricKey (m : Metric) : String :=
  listJoin "-" ([m.name, m.unit.getD "", pyStr m.req_id] ++ m.dimensions.map Dimension.toStr)

/-- The identity-relevant fields of a metric: everything except the value
record, which `Metric.update` mutates. -/
def metricSig (m : Metric) : String × Option String × List Dimension × Option String × Option PyObj :=
  (m.name, m.unit, m.dimensions, m.req_id, m.metrics_method)

/-- The cache contents determined by a store list: each key paired with the
index of its metric, indices starting at `i`. -/
def keyIdx : List String → Nat → List (String × Nat)
  | [], _ => []
  | k :: ks, i => (k, i) :: keyIdx ks (i + 1)

/-- The representation invariant tying `cache` to `store`: the cache is
exactly the keys of the stored metrics paired with their indices, and those
keys are pairwise distinct. -/
def Inv (st : MetricsStore) : Prop :=
  st.cache = keyIdx (st.store.map metricKey) 0 ∧ (st.store.map metricKey).Nodup

/-- One successful public add-call turning state `st` into state `st'`. -/
inductive AddCall : MetricsStore → MetricsStore → Prop where
  | counter (st st' : MetricsStore) (name : String) (value : PyVal) (idx : Option Int)
      (dimensions : Option DimArg)
      (h : st.add_counter name value idx dimensions = .ok st') : AddCall st st'
  | time (st st' : MetricsStore) (name : String) (value : PyVal) (idx : Option Int)
      (unit : String) (dimensions : Option DimArg)
      (h : st.add_time name value idx unit dimensions = .ok st') : AddCall st st'
  | size (st st' : MetricsStore) (name : String) (value : PyVal) (idx : Option Int)
      (unit : String) (dimensions : Option DimArg)
      (h : st.add_size name value idx unit dimensions = .ok st') : AddCall st st'
  | percent (st st' : MetricsStore) (name : String) (value : PyVal) (idx : Option Int)
      (dimensions : Option DimArg)
      (h : st.add_percent name value idx dimensions = .ok st') : AddCall st st'
  | error (st st' : MetricsStore) (name : String) (value : PyVal)
      (dimensions : Option DimArg)
      (h : st.add_error name value dimensions = .ok st') : AddCall st st'
  | metric (st st' : MetricsStore) (name : String) (value : PyVal) (idx : Option Int)
      (unit : Option String) (dimensions : Option DimArg)
      (h : st.add_metric name value idx unit dimensions = .ok st') : AddCall st st'

/-- States reachable from a fresh `MetricsStore` by successful add-calls. -/
inductive Reachable : MetricsStore → Prop where
  | init (request_ids : ReqIds) (model_name : String) :
      Reachable (MetricsStore.init request_ids model_name)
  | step (st st' : MetricsStore) : Reachable st → AddCall st st' → Reachable st'

/-- Success state of a call, with default `d` on error (used to name the
states of concrete runs). -/
def exceptOkD (d : MetricsStore) : Except PyErr MetricsStore → MetricsStore
  | .ok s => s
  | .error _ => d

/-- A concrete fresh store used as a witness state. -/
def exSt0 : MetricsStore := MetricsStore.init (ReqIds.pydict [(0, "A")]) "m"

/-- The state after one successful `add_counter` call on `exSt0`. -/
def exSt1 : MetricsStore := exceptOkD exSt0 (exSt0.add_counter "x" (PyVal.pyint 1) none none)

/-! ### Basic lemmas about the helpers -/

@[simp] lemma augDims_some (mn : String) (s : String) (ds : List Dimension) :
    augDims mn (some s) ds = ds ++ [⟨"ModelName", mn⟩, ⟨"Level", "Model"⟩] := rfl

@[simp] lemma augDims_none (mn : String) (ds : List Dimension) :
    augDims mn none ds = ds ++ [⟨"Level", "Error"⟩] := rfl

lemma seqOpts_map_some (l : List String) : seqOpts (l.map some) = some l := by
  induction l with
  | nil => rfl
  | cons a l ih => simp [seqOpts, ih]

lemma seqOpts_map_toStr (ds : List Dimension) :
    seqOpts (ds.map (fun d => some d.toStr)) = some (ds.map Dimension.toStr) := by
  induction ds with
  | nil => rfl
  | cons d ds ih => simp [seqOpts, ih]

lemma pyJoin_all_some (sep n u r : String) (ds : List Dimension) :
    pyJoin sep ([some n, some u, some r] ++ ds.map (fun d => some d.toStr))
      = .ok (listJoin sep ([n, u, r] ++ ds.map Dimension.toStr)) := by
  simp [pyJoin, seqOpts, seqOpts_map_toStr]

lemma metricKey_update (m : Metric) (v : PyVal) : metricKey (m.update v) = metricKey m := rfl

lemma metricSig_update (m : Metric) (v : PyVal) : metricSig (m.update v) = metricSig m := rfl

lemma map_updateAt {α : Type} (f : Metric → α) (hf : ∀ m v, f (m.update v) = f m) :
    ∀ (l : List Metric) (i : Nat) (v : PyVal), (updateAt l i v).map f = l.map f := by
  intro l
  induction l with
  | nil => intro i v; rfl
  | cons m ms ih =>
    intro i v
    cases i with
    | zero => simp [updateAt, hf]
    | succ j => simp [updateAt, ih]

lemma keyIdx_fst (ks : List String) (i : Nat) : (keyIdx ks i).map Prod.fst = ks := by
  induction ks generalizing i with
  | nil => rfl
  | cons k ks ih => simp [keyIdx, ih]

lemma keyIdx_append (ks : List String) (k : String) (i : Nat) :
    keyIdx (ks ++ [k]) i = keyIdx ks i ++ [(k, i + ks.length)] := by
  induction ks generalizing i with
  | nil => simp [keyIdx]
  | cons a ks ih => simp [keyIdx, ih]; omega

lemma mem_keyIdx {ks : List String} {i : Nat} {p : String × Nat} (h : p ∈ keyIdx ks i) :
    ∃ j, ∃ hj : j < ks.length, p.2 = i + j ∧ p.1 = ks.get ⟨j, hj⟩ := by
  induction ks generalizing i with
  | nil => simp [keyIdx] at h
  | cons k ks ih =>
    rw [keyIdx, List.mem_cons] at h
    rcases h with h | h
    · exact ⟨0, Nat.succ_pos _, by simp [h]⟩
    · obtain ⟨j, hj, h2, h1⟩ := ih h
      exact ⟨j + 1, Nat.succ_lt_succ hj, by omega, by simpa using h1⟩

/-! ### Shape of a successful `_add_or_update` -/

/-- With a null unit, `_add_or_update` always raises the `TypeError` of
joining `None` into the key string, before any write to store or cache. -/
lemma core_none_unit (st : MetricsStore) (n : String) (v : PyVal) (r : Option String)
    (mm : Option PyObj) (ds0 : List Dimension) :
    st.add_or_update_core n v r none mm ds0 = .error (.typeError joinNoneErrMsg) := rfl

/-- With a non-null unit, `_add_or_update` always succeeds: it either appends
a fresh metric (whose cache key is its `metricKey` and was not cached) or
forwards the value to the cached metric by index, leaving the cache alone. -/
lemma core_ok_cases (st st' : MetricsStore) (n : String) (v : PyVal) (r : Option String)
    (u : String) (mm : Option PyObj) (ds0 : List Dimension)
    (h : st.add_or_update_core n v r (some u) mm ds0 = .ok st') :
    st'.request_ids = st.request_ids ∧ st'.model_name = st.model_name ∧
    ((∃ m : Metric, st'.store = st.store ++ [m]
        ∧ st'.cache = st.cache ++ [(metricKey m, st.store.length)]
        ∧ st.cache.find? (fun p => p.1 == metricKey m) = none
        ∧ m = { name := n, values := [v], unit := some u,
                dimensions := augDims st.model_name r ds0,
                req_id := r, metrics_method := mm })
      ∨ (∃ i : Nat, st'.store = updateAt st.store i v ∧ st'.cache = st.cache)) := by
  simp only [MetricsStore.add_or_update_core] at h
  rw [pyJoin_all_some] at h
  have hkey : listJoin "-" ([n, u, pyStr r] ++ (augDims st.model_name r ds0).map Dimension.toStr)
      = metricKey (⟨n, [v], some u, augDims st.model_name r ds0, r, mm⟩ : Metric) := rfl
  rw [hkey] at h
  dsimp only at h
  rcases hf : st.cache.find? (fun p =>
      p.1 == metricKey (⟨n, [v], some u, augDims st.model_name r ds0, r, mm⟩ : Metric))
    with _ | q
  · rw [hf] at h
    injection h with h
    subst h
    exact ⟨rfl, rfl, Or.inl ⟨_, rfl, rfl, hf, rfl⟩⟩
  · rw [hf] at h
    injection h with h
    subst h
    exact ⟨rfl, rfl, Or.inr ⟨q.2, rfl, rfl⟩⟩

/-- With a non-null unit, `_add_or_update` never raises. -/
lemma core_some_unit_ok (st : MetricsStore) (n : String) (v : PyVal) (r : Option String)
    (u : String) (mm : Option PyObj) (ds0 : List Dimension) :
    ∃ st', st.add_or_update_core n v r (some u) mm ds0 = .ok st' := by
  simp only [MetricsStore.add_or_update_core]
  rw [pyJoin_all_some]
  dsimp only
  rcases hf : st.cache.find?
      (fun p => p.1 == listJoin "-" ([n, u, pyStr r]
        ++ (augDims st.model_name r ds0).map Dimension.toStr)) with _ | q
  · rw [hf]
    exact ⟨_, rfl⟩
  · rw [hf]
    exact ⟨_, rfl⟩

/-- A successful `_add_or_update` factors through the core with some plain
dimension list (empty when the argument was absent). -/
lemma aou_ok_core {st st' : MetricsStore} {n : String} {v : PyVal} {r : Option String}
    {u : Option String} {mm : Option PyObj} {d : Option DimArg}
    (h : st.add_or_update n v r u mm d = .ok st') :
    ∃ ds0, st.add_or_update_core n v r u mm ds0 = .ok st' := by
  cases d with
  | none => exact ⟨[], h⟩
  | some a =>
    cases a with
    | pyList ds => exact ⟨ds, h⟩
    | nonList => simp [MetricsStore.add_or_update, dimsErrMsg] at h

/-- Every successful public add-call factors through `_add_or_update`. -/
lemma AddCall.exists_aou {st st' : MetricsStore} (h : AddCall st st') :
    ∃ n v r u mm d, st.add_or_update n v r u mm d = .ok st' := by
  cases h with
  | counter name value idx dims hc =>
    simp only [MetricsStore.add_counter] at hc
    split at hc
    · simp at hc
    · exact ⟨_, _, _, _, _, _, hc⟩
  | time name value idx unit dims hc =>
    simp only [MetricsStore.add_time] at hc
    split at hc
    · simp at hc
    · split at hc
      · simp at hc
      · exact ⟨_, _, _, _, _, _, hc⟩
  | size name value idx unit dims hc =>
    simp only [MetricsStore.add_size] at hc
    split at hc
    · simp at hc
    · split at hc
      · simp at hc
      · exact ⟨_, _, _, _, _, _, hc⟩
  | percent name value idx dims hc =>
    simp only [MetricsStore.add_percent] at hc
    split at hc
    · simp at hc
    · exact ⟨_, _, _, _, _, _, hc⟩
  | error name value dims hc =>
    simp only [MetricsStore.add_error] at hc
    exact ⟨_, _, _, _, _, _, hc⟩
  | metric name value idx unit dims hc =>
    simp only [MetricsStore.add_metric] at hc
    split at hc
    · simp at hc
    · exact ⟨_, _, _, _, _, _, hc⟩

/-- A successful public add-call either appends one fresh metric (caching its
key at the index it occupies) or updates one stored metric in place. -/
lemma AddCall.shape {st st' : MetricsStore} (h : AddCall st st') :
    (∃ m : Metric, st'.store = st.store ++ [m]
        ∧ st'.cache = st.cache ++ [(metricKey m, st.store.length)]
        ∧ st.cache.find? (fun p => p.1 == metricKey m) = none)
    ∨ (∃ i v, st'.store = updateAt st.store i v ∧ st'.cache = st.cache) := by
  obtain ⟨n, v, r, u, mm, d, hd⟩ := h.exists_aou
  obtain ⟨ds0, hc⟩ := aou_ok_core hd
  cases u with
  | none =>
    rw [core_none_unit] at hc
    simp at hc
  | some u =>
    obtain ⟨-, -, hcase⟩ := core_ok_cases _ _ _ _ _ _ _ _ hc
    rcases hcase with ⟨m, h1, h2, h3, -⟩ | ⟨i, h1, h2⟩
    · exact Or.inl ⟨m, h1, h2, h3⟩
    · exact Or.inr ⟨i, v, h1, h2⟩

lemma key_not_mem_of_find?_none {st : MetricsStore}
    (hc : st.cache = keyIdx (st.store.map metricKey) 0) {k : String}
    (hf : st.cache.find? (fun p => p.1 == k) = none) :
    k ∉ st.store.map metricKey := by
  intro hk
  rw [← keyIdx_fst (st.store.map metricKey) 0, ← hc] at hk
  obtain ⟨p, hp, hpk⟩ := List.mem_map.mp hk
  have hnp := List.find?_eq_none.mp hf p hp
  simp [hpk] at hnp

/-- The representation invariant is preserved by every successful add-call. -/
lemma inv_step {st st' : MetricsStore} (hInv : Inv st) (h : AddCall st st') : Inv st' := by
  obtain ⟨hc, hnd⟩ := hInv
  rcases h.shape with ⟨m, h1, h2, h3⟩ | ⟨i, v, h1, h2⟩
  · constructor
    · rw [h2, h1, hc, List.map_append, List.map_cons, List.map_nil, keyIdx_append]
      simp [List.length_map]
    · rw [h1, List.map_append, List.map_cons, List.map_nil]
      have hk := key_not_mem_of_find?_none hc h3
      simp [List.nodup_append, hnd, hk]
  · constructor
    · rw [h2, h1, map_updateAt metricKey metricKey_update, hc]
    · rw [h1, map_updateAt metricKey metricKey_update]
      exact hnd

/-- Every reachable store state satisfies the representation invariant. -/
lemma reachable_inv {st : MetricsStore} (h : Reachable st) : Inv st := by
  induction h with
  | init rids mname => exact ⟨rfl, List.nodup_nil⟩
  | step st st' _ hcall ih => exact inv_step ih hcall

/-- `_get_req` can only raise the `TypeError` from testing an integer for
membership in a string. -/
lemma get_req_error_eq {st : MetricsStore} {idx : Option Int} {e : PyErr}
    (h : st.get_req idx = .error e) : e = .typeError strInIntErrMsg := by
  simp only [MetricsStore.get_req] at h
  split at h
  · injection h with h
    exact h.symm
  · split at h <;> simp at h
  · simp at h

/-! ### The claims -/

/-- C1: the claim says every one of the six add operations, given a non-list
`dimensions` argument, fails with a contract error and leaves store and cache
unchanged. The code does so only for `add_counter`; the five other operations
pass `dimensions` positionally into the `metrics_method` parameter of
`_add_or_update`, so the non-list value is never validated: the call below
succeeds, appends a metric and a cache entry, and records the non-list value
as the metric's aggregation method. -/
theorem claim_C1_nonlist_dims_accepted :
    ((MetricsStore.init (ReqIds.pydict [(0, "r1")]) "resnet").add_time "lat" (PyVal.pyint 5)
        none "ms" (some DimArg.nonList)).map
      (fun s => (s.store.length, s.cache.length, s.store.map Metric.metrics_method))
      = Except.ok (1, 1, [some (PyObj.pydims DimArg.nonList)]) := rfl

/-- C2: the claim says `add_time` (and the other non-counter operations) with
a caller-supplied dimensions list yields a metric whose dimension list is the
caller's dimensions followed by the auto-appended tags, with a null
aggregation-method tag. Because the source passes `dimensions` positionally
into `metrics_method`, the created metric's dimension list holds only the two
auto-appended tags (the caller's dimension is absent) and its
aggregation-method slot holds the caller's dimensions list (not null). -/
theorem claim_C2_dims_passed_as_method :
    ((MetricsStore.init (ReqIds.pydict [(0, "r1")]) "resnet").add_time "lat" (PyVal.pyint 5)
        none "ms" (some (DimArg.pyList [⟨"X", "Y"⟩]))).map
      (fun s => s.store.map (fun m => (m.dimensions, m.metrics_method)))
      = Except.ok [([⟨"ModelName", "resnet"⟩, ⟨"Level", "Model"⟩],
          some (PyObj.pydims (DimArg.pyList [⟨"X", "Y"⟩])))] := rfl

/-- C3 counterexample: with a plain-string `requestIds` and a non-null integer
`idx`, an add-call does not resolve the request id to that string: the Python
membership test `idx in self.request_ids` raises a `TypeError`, so the call
fails instead. -/
theorem claim_C3_counterexample :
    (MetricsStore.init (ReqIds.pystr "req-0") "m").add_counter "x" (PyVal.pyint 1)
        (some 0) none
      = .error (.typeError strInIntErrMsg) := rfl

/-- C3 amended: if `requestIds` is a plain string, resolution returns that
string unchanged when `idx` is null; when `idx` is a non-null integer the
resolution raises a `TypeError` (integer membership test on a string) and no
request id is produced. -/
theorem claim_C3_scalar_passthrough (st : MetricsStore) (s : String)
    (h : st.request_ids = ReqIds.pystr s) :
    st.get_req none = .ok (some s) ∧
      ∀ i : Int, st.get_req (some i) = .error (.typeError strInIntErrMsg) := by
  constructor
  · simp [MetricsStore.get_req, h]
  · intro i
    simp [MetricsStore.get_req, h]

/-- C3 witness: the amended statement at a concrete store. -/
theorem claim_C3_witness :
    (MetricsStore.init (ReqIds.pystr "req-0") "m").get_req none = .ok (some "req-0") :=
  (claim_C3_scalar_passthrough _ "req-0" rfl).1

/-- C4: the claim says two calls with the same dimension set in different
orders always produce two distinct store entries. For `add_time` (and every
operation other than `add_counter`) the caller's dimensions never reach the
dedup key (they are passed as `metrics_method`), so the two calls below, with
the same two distinct dimensions in opposite orders, share one key and are
deduplicated into a single store entry. -/
theorem claim_C4_reorder_not_distinct :
    (((MetricsStore.init (ReqIds.pydict [(0, "r1")]) "resnet").add_time "t" (PyVal.pyint 1)
          none "ms" (some (DimArg.pyList [⟨"A", "a"⟩, ⟨"B", "b"⟩]))).bind
        (fun s => s.add_time "t" (PyVal.pyint 2) none "ms"
          (some (DimArg.pyList [⟨"B", "b"⟩, ⟨"A", "a"⟩])))).map
      (fun s => s.store.length) = Except.ok 1 := rfl

/-- C5: in every reachable state, the stored metrics have pairwise distinct
composite keys (at most one metric object per key), every cache entry points
at an element of `store` carrying exactly its key, and a further successful
add-call either appends one metric with a key never seen in `store` or
appends nothing and adds no cache entry (forwarding the value to the existing
metric's update). -/
theorem claim_C5_dedup (st : MetricsStore) (h : Reachable st) :
    (st.store.map metricKey).Nodup ∧
    (∀ p ∈ st.cache, ∃ hp : p.2 < st.store.length,
        metricKey (st.store.get ⟨p.2, hp⟩) = p.1) ∧
    (∀ st', AddCall st st' →
      (∃ m, st'.store = st.store ++ [m] ∧ metricKey m ∉ st.store.map metricKey) ∨
      (st'.store.map metricKey = st.store.map metricKey ∧ st'.cache = st.cache)) := by
  obtain ⟨hc, hnd⟩ := reachable_inv h
  refine ⟨hnd, ?_, ?_⟩
  · intro p hp
    rw [hc] at hp
    obtain ⟨j, hj, hp2, hp1⟩ := mem_keyIdx hp
    rw [Nat.zero_add] at hp2
    subst hp2
    refine ⟨by simpa using hj, ?_⟩
    rw [hp1]
    simp [List.get_eq_getElem, List.getElem_map]
  · intro st' hcall
    rcases hcall.shape with ⟨m, h1, h2, h3⟩ | ⟨i, v, h1, h2⟩
    · exact Or.inl ⟨m, h1, key_not_mem_of_find?_none hc h3⟩
    · exact Or.inr ⟨by rw [h1, map_updateAt metricKey metricKey_update], h2⟩

/-- C5 witness: the dedup invariant at a concrete reachable state with one
stored metric (fresh store, one `add_counter` call). -/
theorem claim_C5_witness :
    (exSt1.store.map metricKey).Nodup ∧
      ∀ p ∈ exSt1.cache, ∃ hp : p.2 < exSt1.store.length,
        metricKey (exSt1.store.get ⟨p.2, hp⟩) = p.1 := by
  have h := claim_C5_dedup exSt1
    (Reachable.step exSt0 exSt1 (Reachable.init _ _)
      (AddCall.counter exSt0 exSt1 "x" (PyVal.pyint 1) none none rfl))
  exact ⟨h.1, h.2.1⟩

/-- C6: `add_time` fails with the invalid-unit `ValueError` exactly when its
unit is outside `{ms, s}`, and `add_size` exactly when its unit is outside
`{MB, kB, GB}`. The validation precedes resolution and `_add_or_update`, and
a failing call returns only the error, so nothing is appended to `store` and
nothing is added to `cache`. -/
theorem claim_C6_unit_validation (st : MetricsStore) (name : String) (value : PyVal)
    (idx : Option Int) (unit : String) (dimensions : Option DimArg) :
    (st.add_time name value idx unit dimensions
        = .error (.valueError timeUnitErrMsg) ↔ unit ∉ (["ms", "s"] : List String)) ∧
    (st.add_size name value idx unit dimensions
        = .error (.valueError sizeUnitErrMsg) ↔ unit ∉ (["MB", "kB", "GB"] : List String)) := by
  constructor
  · constructor
    · intro h
      by_contra hmem
      simp only [MetricsStore.add_time] at h
      rw [if_neg (not_not_intro hmem)] at h
      rcases hg : st.get_req idx with e | r
      · rw [hg] at h
        dsimp only at h
        have he := get_req_error_eq hg
        subst he
        simp at h
      · rw [hg] at h
        dsimp only at h
        obtain ⟨st', hok⟩ := core_some_unit_ok st name value r unit
          (dimensions.map PyObj.pydims) []
        have hok2 : st.add_or_update name value r (some unit)
            (dimensions.map PyObj.pydims) none = .ok st' := hok
        rw [hok2] at h
        simp at h
    · intro hmem
      simp only [MetricsStore.add_time]
      rw [if_pos hmem]
  · constructor
    · intro h
      by_contra hmem
      simp only [MetricsStore.add_size] at h
      rw [if_neg (not_not_intro hmem)] at h
      rcases hg : st.get_req idx with e | r
      · rw [hg] at h
        dsimp only at h
        have he := get_req_error_eq hg
        subst he
        simp at h
      · rw [hg] at h
        dsimp only at h
        obtain ⟨st', hok⟩ := core_some_unit_ok st name value r unit
          (dimensions.map PyObj.pydims) []
        have hok2 : st.add_or_update name value r (some unit)
            (dimensions.map PyObj.pydims) none = .ok st' := hok
        rw [hok2] at h
        simp at h
    · intro hmem
      simp only [MetricsStore.add_size]
      rw [if_pos hmem]

/-- C7: when `requestIds` is a mapping from batch index to id, resolution
returns the mapped id when `idx` is supplied and present among the keys, and
otherwise (idx null, or not a key) the comma-separated join of all values of
the mapping. -/
theorem claim_C7_req_resolution (st : MetricsStore) (entries : List (Int × String))
    (idx : Option Int) (h : st.request_ids = ReqIds.pydict entries) :
    st.get_req idx = .ok (some (
      match idx with
      | none => listJoin "," (entries.map Prod.snd)
      | some i =>
        match entries.find? (fun p => p.1 == i) with
        | some p => p.2
        | none => listJoin "," (entries.map Prod.snd))) := by
  cases idx with
  | none => simp [MetricsStore.get_req, h]
  | some i =>
    rcases hf : entries.find? (fun p => p.1 == i) with _ | p <;>
      simp [MetricsStore.get_req, h, hf]

/-- C7 witness: idx-null fallback joins all values of the mapping. -/
theorem claim_C7_witness :
    (MetricsStore.init (ReqIds.pydict [(0, "A"), (1, "B")]) "m").get_req none
      = .ok (some "A,B") :=
  claim_C7_req_resolution _ [(0, "A"), (1, "B")] none rfl

/-- C8: a successful add-call only ever appends to `store`: every prior
element stays in place with all identity fields (name, unit, dimensions,
request id, aggregation method) intact — only the value record of an updated
metric changes — and the key sequence of `store` stays duplicate-free, so the
iteration order of `store` is the first-occurrence order of the distinct
composite keys. -/
theorem claim_C8_append_only (st st' : MetricsStore) (h : Reachable st)
    (hcall : AddCall st st') :
    (∃ tl, st'.store.map metricSig = st.store.map metricSig ++ tl) ∧
    (st'.store.map metricKey).Nodup := by
  constructor
  · rcases hcall.shape with ⟨m, h1, -, -⟩ | ⟨i, v, h1, -⟩
    · exact ⟨[metricSig m], by rw [h1, List.map_append, List.map_cons, List.map_nil]⟩
    · exact ⟨[], by rw [h1, map_updateAt metricSig metricSig_update, List.append_nil]⟩
  · exact (reachable_inv (Reachable.step st st' h hcall)).2

/-- C8 witness: the append-only property across one concrete successful
`add_counter` call on a fresh store. -/
theorem claim_C8_witness :
    (∃ tl, exSt1.store.map metricSig = exSt0.store.map metricSig ++ tl) ∧
    (exSt1.store.map metricKey).Nodup :=
  claim_C8_append_only exSt0 exSt1 (Reachable.init _ _)
    (AddCall.counter exSt0 exSt1 "x" (PyVal.pyint 1) none none rfl)

/-- C9 counterexample: the claim that every `add_error` call creates or
updates a metric with a null request id and the empty-string unit fails at a
reachable input. The composite key is a hyphen-joined string, so
`add_metric("a", 1, unit="z-")` on a store with null `request_ids` (request id
resolves to null, dimension augmentation `Level:Error`) caches the key
`a-z--None-Level:Error`, and the later `add_error("a-z", err)` computes the
very same key: the error call is deduplicated onto that metric and updates a
metric whose name is `a` and whose unit is `z-`, not the empty string. After
the two calls the store still holds exactly one metric, with unit `z-` and
two recorded values. -/
theorem claim_C9_counterexample :
    (((MetricsStore.init ReqIds.pynone "m").add_metric "a" (PyVal.pyint 1) none
          (some "z-") none).bind
        (fun s => s.add_error "a-z" (PyVal.pystr "err") none)).map
      (fun s => (s.store.length, s.store.map (fun m => (m.name, m.unit, m.values.length))))
      = Except.ok (1, [("a", some "z-", 2)]) := rfl

/-- C9 amended: every `add_error` call succeeds, handing `_add_or_update` a
null request id and the empty-string unit. When it creates a metric, that
metric has a null request id, the empty-string unit, and dimension list
exactly `[Dimension(Level, Error)]` — in particular it includes the
`Level:Error` tag and never the `ModelName` or `Level:Model` tags, the two
augmentation branches being mutually exclusive on the nullness of the request
id. When its composite key is already cached, it appends nothing and adds no
cache entry, forwarding the value to the cached metric in place (identity
fields of all stored metrics unchanged) — but because the key is a
hyphen-joined string, separator collisions mean the aliased metric is not
guaranteed to carry the empty-string unit. -/
theorem claim_C9_error_metric (st : MetricsStore) (name : String) (value : PyVal)
    (dimensions : Option DimArg) :
    ∃ st', st.add_error name value dimensions = .ok st' ∧
      ((∃ m : Metric, st'.store = st.store ++ [m] ∧ m.req_id = none ∧ m.unit = some "" ∧
          m.dimensions = [⟨"Level", "Error"⟩]) ∨
        (st'.store.map metricSig = st.store.map metricSig ∧ st'.cache = st.cache)) := by
  obtain ⟨st', hok⟩ := core_some_unit_ok st name value none ""
    (dimensions.map PyObj.pydims) []
  have hrw : st.add_error name value dimensions
      = st.add_or_update_core name value none (some "") (dimensions.map PyObj.pydims) [] := rfl
  refine ⟨st', by rw [hrw, hok], ?_⟩
  obtain ⟨-, -, hcase⟩ := core_ok_cases _ _ _ _ _ _ _ _ hok
  rcases hcase with ⟨m, h1, -, -, hm⟩ | ⟨i, h1, h2⟩
  · refine Or.inl ⟨m, h1, ?_, ?_, ?_⟩ <;> simp [hm]
  · exact Or.inr ⟨by rw [h1, map_updateAt metricSig metricSig_update], h2⟩

/-- C10: `add_metric` with a null unit always fails — when request-id
resolution succeeds, the failure is precisely the `TypeError` of joining the
null unit into the composite key string — and, failing, it returns only the
error: no metric is ever recorded with an absent unit and neither `store` nor
`cache` is written. -/
theorem claim_C10_none_unit (st : MetricsStore) (name : String) (value : PyVal)
    (idx : Option Int) (dimensions : Option DimArg) :
    (∃ e, st.add_metric name value idx none dimensions = .error e) ∧
    (∀ r, st.get_req idx = .ok r →
      st.add_metric name value idx none dimensions = .error (.typeError joinNoneErrMsg)) := by
  have h2 : ∀ r, st.get_req idx = .ok r →
      st.add_metric name value idx none dimensions = .error (.typeError joinNoneErrMsg) := by
    intro r hg
    simp only [MetricsStore.add_metric, hg]
    exact core_none_unit st name value r (dimensions.map PyObj.pydims) []
  refine ⟨?_, h2⟩
  rcases hg : st.get_req idx with e | r
  · refine ⟨e, ?_⟩
    simp only [MetricsStore.add_metric, hg]
  · exact ⟨.typeError joinNoneErrMsg, h2 r hg⟩

/-- C10 witness: a concrete `add_metric` call with a null unit fails with the
join `TypeError`. -/
theorem claim_C10_witness :
    (MetricsStore.init (ReqIds.pydict [(0, "A")]) "m").add_metric "x" (PyVal.pyint 1)
        none none none = .error (.typeError joinNoneErrMsg) :=
  (claim_C10_none_unit _ "x" (PyVal.pyint 1) none none).2 (some "A") rfl

end MMS
